import Mathlib

/-!
Verification of the LMX2820 signal-generator control stack
(frequency planner, register-sequencing device driver, controller FSM)
against its natural-language specification.

The definitions below are a shallow embedding of the Python sources:
  * `frequency_plan.py`  — `compute_frequency_plan_integer_n` and its constants
  * `register_map.py`    — `set_field` and the bitfield constants it defines
  * `lmx2820.py`         — the `LMX2820` driver (register image, RF path
    configuration, frequency write sequence, calibration, lock polling)
  * `fsm.py`             — the `RFFSM` controller class

`lmx2820.py` refers to register-address and mask names (`R_PLL_NUM`,
`R_PLL_N`, `PLL_NUM_MASK`, `VCO_CAL_MASK`, ...) that `register_map.py` does
not define.  Those unresolved names are modelled as parameters collected in
the `URegs` structure; theorems quantify over them, and witnesses
instantiate them with the closest documented analogues from
`register_map.py` (`defaultURegs`).

Machine integers: Python integers are unbounded, so all register values are
modelled as `Nat`; `reg_val & ~mask` (clearing the bits of `mask`) is
modelled as `reg_val ^^^ (reg_val &&& mask)`, which agrees with Python on
nonnegative values.
-/

namespace SigGen

/-! ## Errors raised by the Python code (exception classes) -/

inductive Err where
  | valueError (msg : String)
  | freqPlanError (msg : String)
  | runtimeError (msg : String)
  | typeError (msg : String)
  | attributeError (msg : String)
deriving DecidableEq

/-! ## frequency_plan.py -/

def F_REF_HZ : Nat := 50000000
def STEP_HZ : Nat := 100000000
def VCO_MIN : Nat := 5650000000
def VCO_MAX : Nat := 11300000000

/-- The dict returned by `compute_frequency_plan_integer_n`
(`frequency_plan.py` lines 145-152). `chdiv` is `None` on every
non-divider path, hence `Option Nat`. -/
structure Plan where
  N : Nat
  chdiv : Option Nat
  outa_mux : Nat
  band : String
  power : Nat
  external_doubler : Bool
deriving DecidableEq

/-- The `for div in [2,4,8,16,32,64,128]` loop with `break`/`else`
(`frequency_plan.py` lines 56-62): first divider whose VCO lands in range. -/
def chdivSearch (freq_hz : Nat) : Option Nat :=
  [2, 4, 8, 16, 32, 64, 128].find?
    (fun div => decide (VCO_MIN ≤ freq_hz * div) && decide (freq_hz * div ≤ VCO_MAX))

/-- Intermediate result of the band-selection decision ladder
(`frequency_plan.py` lines 46-116): band tag, OUTA mux value, VCO frequency,
channel divider, external-doubler flag. -/
structure BandSel where
  band : String
  outa_mux : Nat
  vco_hz : Nat
  chdiv : Option Nat
  external_doubler : Bool
deriving DecidableEq

/-- Band/path decision ladder of `compute_frequency_plan_integer_n`
(`frequency_plan.py` lines 46-116), transcribed branch by branch. -/
def bandSelect (freq_hz : Nat) : Except Err BandSel :=
  if freq_hz ≤ 5650000000 then
    match chdivSearch freq_hz with
    | some div => .ok ⟨"1_10", 0, freq_hz * div, some div, false⟩
    | none => .error (.freqPlanError "No valid CHDIV for frequency")
  else if freq_hz ≤ 10000000000 then
    if ¬ (VCO_MIN ≤ freq_hz ∧ freq_hz ≤ VCO_MAX) then
      .error (.freqPlanError "VCO out of range in 5.65-10 GHz range")
    else .ok ⟨"1_10", 1, freq_hz, none, false⟩
  else if freq_hz ≤ 11300000000 then
    .ok ⟨"10_22", 1, freq_hz, none, false⟩
  else if freq_hz ≤ 22600000000 then
    if ¬ (VCO_MIN ≤ freq_hz / 2 ∧ freq_hz / 2 ≤ VCO_MAX) then
      .error (.freqPlanError "VCO out of range in 11.3-22.6 GHz range")
    else .ok ⟨"10_22", 2, freq_hz / 2, none, false⟩
  else if freq_hz ≤ 30000000000 then
    if ¬ (VCO_MIN ≤ freq_hz / 4 ∧ freq_hz / 4 ≤ VCO_MAX) then
      .error (.freqPlanError "VCO out of range in 22.6-30 GHz range")
    else .ok ⟨"22_30", 2, freq_hz / 4, none, true⟩
  else
    if ¬ (VCO_MIN ≤ freq_hz / 4 ∧ freq_hz / 4 ≤ VCO_MAX) then
      .error (.freqPlanError "VCO out of range in 30-40 GHz range")
    else .ok ⟨"30_40", 2, freq_hz / 4, none, true⟩

/-- `compute_frequency_plan_integer_n` (`frequency_plan.py` lines 36-152):
validation, band ladder, integer-N derivation, fixed power `0x7`. -/
def compute_frequency_plan_integer_n (freq_hz : Nat) : Except Err Plan :=
  if ¬ (1000000000 ≤ freq_hz ∧ freq_hz ≤ 40000000000) then
    .error (.valueError "Frequency must be between 1 and 40 GHz")
  else if freq_hz % STEP_HZ ≠ 0 then
    .error (.valueError "Frequency must be in 100 MHz steps")
  else
    match bandSelect freq_hz with
    | .error e => .error e
    | .ok b =>
      if b.vco_hz % F_REF_HZ ≠ 0 then
        .error (.freqPlanError "VCO frequency is not an integer multiple of reference")
      else
        if ¬ (12 ≤ b.vco_hz / F_REF_HZ ∧ b.vco_hz / F_REF_HZ ≤ 0x7FFF) then
          .error (.freqPlanError "PLL N out of valid range (12-32767)")
        else
          .ok ⟨b.vco_hz / F_REF_HZ, b.chdiv, b.outa_mux, b.band, 0x7, b.external_doubler⟩

/-! ## register_map.py -/

/-- `set_field` (`register_map.py` lines 20-23):
`reg_val &= ~mask; reg_val |= (value << shift) & mask`.
`reg_val & ~mask` on unbounded nonnegative integers equals
`reg_val ^^^ (reg_val &&& mask)`. -/
def set_field (reg_val mask shift value : Nat) : Nat :=
  (reg_val ^^^ (reg_val &&& mask)) ||| ((value <<< shift) &&& mask)

/-- The operation that the SPEC's words describe (spec §4.2): "clears bits
under `mask<<shift` in the current shadow value, ORs in
`(value & mask) << shift`".  Stated for comparison with `set_field`. -/
def set_field_spec (reg_val mask shift value : Nat) : Nat :=
  (reg_val ^^^ (reg_val &&& (mask <<< shift))) ||| ((value &&& mask) <<< shift)

-- Bitfield constants that register_map.py does define and lmx2820.py uses.
def PLL_N_MASK : Nat := 0x7FFF
def PLL_N_SHIFT : Nat := 0
def CHDIV_MASK : Nat := 0x01C0
def CHDIV_SHIFT : Nat := 6
def OUTA_MUX_MASK : Nat := 0x0003
def OUTA_MUX_SHIFT : Nat := 0
def RFOUTA_PWR_MASK : Nat := 0x000E
def RFOUTA_PWR_SHIFT : Nat := 1
def RFOUTA_EN_MASK : Nat := 0x0010
def RFOUTA_EN_SHIFT : Nat := 4

/-- Names referenced by `lmx2820.py` that `register_map.py` does not define
(`R_PLL_NUM`, `R_PLL_DEN`, `R_PLL_N`, `R_CHDIV`, `R_OUTA_MUX`,
`R_RFOUTA_PWR`, `R_RFOUTA_EN`, `R_VCO_CAL`, `PLL_NUM_MASK/SHIFT`,
`PLL_DEN_MASK/SHIFT`, `VCO_CAL_MASK/SHIFT`).  Modelled as parameters so the
theorems hold for every resolution of those names. -/
structure URegs where
  R_PLL_NUM : Nat
  R_PLL_DEN : Nat
  R_PLL_N : Nat
  R_CHDIV : Nat
  R_OUTA_MUX : Nat
  R_RFOUTA_PWR : Nat
  R_RFOUTA_EN : Nat
  R_VCO_CAL : Nat
  PLL_NUM_MASK : Nat
  PLL_NUM_SHIFT : Nat
  PLL_DEN_MASK : Nat
  PLL_DEN_SHIFT : Nat
  VCO_CAL_MASK : Nat
  VCO_CAL_SHIFT : Nat
deriving DecidableEq

/-- The documented analogues from `register_map.py` for the unresolved
names: NUM/DEN LSB registers R43/R39 (16-bit fields), `PLL_N_REG` R36,
`CHDIV_REG` R32, `OUTA_MUX_REG` R78, `RFOUTA_PWR_REG` R79,
`RFOUTA_EN_REG` R78, `VCO_CAL_CTRL_REG` R0 with the FCAL_EN bit. -/
def defaultURegs : URegs :=
  { R_PLL_NUM := 43, R_PLL_DEN := 39, R_PLL_N := 36, R_CHDIV := 32
    R_OUTA_MUX := 78, R_RFOUTA_PWR := 79, R_RFOUTA_EN := 78, R_VCO_CAL := 0
    PLL_NUM_MASK := 0xFFFF, PLL_NUM_SHIFT := 0
    PLL_DEN_MASK := 0xFFFF, PLL_DEN_SHIFT := 0
    VCO_CAL_MASK := 0x0010, VCO_CAL_SHIFT := 4 }

/-! ## Device state: register image, SPI transport log, GPIO surface

The driver owns a shadow register image (`lmx2820.py` line 31) and talks to
two collaborators: the SPI transport (`spi.write(reg, value)`) and the GPIO
surface (`gpio.rf_enable`, `gpio.set_sp4t`, `gpio.external_doubler_enable`,
`gpio.power_enable`, `gpio.reset_pulse`).  All outward effects are recorded
as a chronological event trace. -/

inductive Ev where
  | spiW (reg val : Nat)
  | rfEn (b : Bool)
  | sp4t (pos : Nat)
  | extDbl (b : Bool)
  | powerEn (b : Bool)
  | resetPulse
deriving DecidableEq

/-- `true` on events that are SPI writes. -/
def Ev.isSpiW : Ev → Bool
  | .spiW _ _ => true
  | _ => false

/-- `true` on RF-enable-line events. -/
def Ev.isRfEn : Ev → Bool
  | .rfEn _ => true
  | _ => false

structure Dev where
  img : Nat → Nat
  trace : List Ev
  calPulses : Nat

/-- Point update of the register image (`self.reg_image[r] = v`). -/
def updFn (f : Nat → Nat) (a v : Nat) : Nat → Nat :=
  fun r => if r = a then v else f r

def getReg (d : Dev) (r : Nat) : Nat := d.img r

def setReg (d : Dev) (a v : Nat) : Dev := { d with img := updFn d.img a v }

/-- `self.spi.write(reg, value)` — appends to the transport log. -/
def spiW (d : Dev) (a v : Nat) : Dev := { d with trace := d.trace ++ [Ev.spiW a v] }

/-- A GPIO side effect. -/
def gpioEmit (d : Dev) (e : Ev) : Dev := { d with trace := d.trace ++ [e] }

/-- Fresh device: `reg_image = [0] * 123`, nothing sent yet
(`lmx2820.py` lines 26-33). -/
def dev0 : Dev := { img := fun _ => 0, trace := [], calPulses := 0 }

/-! ## lmx2820.py driver operations -/

/-- `LMX2820.rf_enable` (`lmx2820.py` lines 69-78): set the RFOUTA_EN field
in the shadow, write the register through SPI, drive the GPIO RF line. -/
def rf_enable (u : URegs) (d : Dev) (enable : Bool) : Dev :=
  let v := set_field (getReg d u.R_RFOUTA_EN) RFOUTA_EN_MASK RFOUTA_EN_SHIFT
    (if enable then 1 else 0)
  gpioEmit (spiW (setReg d u.R_RFOUTA_EN v) u.R_RFOUTA_EN v) (Ev.rfEn enable)

/-- `LMX2820._configure_rf_path` (`lmx2820.py` lines 108-128): recognizes
bands `"1_10"`, `"10_22"`, `"22_32"`, `"32_40"`; anything else raises
`ValueError` before touching hardware. -/
def configure_rf_path (d : Dev) (p : Plan) : Except (Err × Dev) Dev :=
  if p.band = "1_10" then
    .ok (gpioEmit (gpioEmit d (Ev.sp4t 0)) (Ev.extDbl false))
  else if p.band = "10_22" then
    .ok (gpioEmit (gpioEmit d (Ev.sp4t 1)) (Ev.extDbl false))
  else if p.band = "22_32" then
    .ok (gpioEmit (gpioEmit d (Ev.sp4t 2)) (Ev.extDbl true))
  else if p.band = "32_40" then
    .ok (gpioEmit (gpioEmit d (Ev.sp4t 3)) (Ev.extDbl true))
  else
    .error (.valueError "Unknown frequency band", d)

/-- `LMX2820._update_registers_from_plan` (`lmx2820.py` lines 134-183):
shadow-image updates only, no SPI writes.  `plan["chdiv"]` is `None` on a
non-divider path; Python then raises `TypeError` inside `set_field`
(`None << shift`), after the NUM/DEN/N fields were already updated. -/
def update_registers_from_plan (u : URegs) (d : Dev) (p : Plan) : Except (Err × Dev) Dev :=
  let d := setReg d u.R_PLL_NUM
    (set_field (getReg d u.R_PLL_NUM) u.PLL_NUM_MASK u.PLL_NUM_SHIFT 0)
  let d := setReg d u.R_PLL_DEN
    (set_field (getReg d u.R_PLL_DEN) u.PLL_DEN_MASK u.PLL_DEN_SHIFT 1)
  let d := setReg d u.R_PLL_N
    (set_field (getReg d u.R_PLL_N) PLL_N_MASK PLL_N_SHIFT p.N)
  match p.chdiv with
  | none =>
    .error (.typeError "unsupported operand type for shift: NoneType", d)
  | some c =>
    let d := setReg d u.R_CHDIV
      (set_field (getReg d u.R_CHDIV) CHDIV_MASK CHDIV_SHIFT c)
    let d := setReg d u.R_OUTA_MUX
      (set_field (getReg d u.R_OUTA_MUX) OUTA_MUX_MASK OUTA_MUX_SHIFT p.outa_mux)
    let d := setReg d u.R_RFOUTA_PWR
      (set_field (getReg d u.R_RFOUTA_PWR) RFOUTA_PWR_MASK RFOUTA_PWR_SHIFT p.power)
    .ok d

/-- Register groups (`lmx2820.py` lines 197-208). -/
def FREQ_REGS (u : URegs) : List Nat :=
  [u.R_PLL_NUM, u.R_PLL_DEN, u.R_PLL_N, u.R_CHDIV, u.R_OUTA_MUX]

def OUTPUT_REGS (u : URegs) : List Nat :=
  [u.R_RFOUTA_PWR, u.R_RFOUTA_EN]

/-- `LMX2820._write_reg_list` (`lmx2820.py` lines 214-216). -/
def write_reg_list (d : Dev) (regs : List Nat) : Dev :=
  regs.foldl (fun d r => spiW d r (getReg d r)) d

/-- `LMX2820._write_static_registers` (`lmx2820.py` lines 218-223):
`for reg, value in enumerate(self.reg_image): self.spi.write(reg, value)`
over the 123-entry image. -/
def write_static_registers (d : Dev) : Dev :=
  (List.range 123).foldl (fun d r => spiW d r (getReg d r)) d

/-- `LMX2820._trigger_vco_calibration` (`lmx2820.py` lines 229-252):
set the calibration bit and write, then clear it and write (one pulse).
`calPulses` counts the pulses for the retry-budget analysis. -/
def trigger_vco_calibration (u : URegs) (d : Dev) : Dev :=
  let v1 := set_field (getReg d u.R_VCO_CAL) u.VCO_CAL_MASK u.VCO_CAL_SHIFT 1
  let d := spiW (setReg d u.R_VCO_CAL v1) u.R_VCO_CAL v1
  let v0 := set_field (getReg d u.R_VCO_CAL) u.VCO_CAL_MASK u.VCO_CAL_SHIFT 0
  let d := spiW (setReg d u.R_VCO_CAL v0) u.R_VCO_CAL v0
  { d with calPulses := d.calPulses + 1 }

/-- `LMX2820.wait_for_lock` (`lmx2820.py` lines 292-297): up to
`timeout_ms` samples of the lock-detect input; returns `true` on the FIRST
locked sample.  `locks i` is the value of the i-th `read_lock_detect()`. -/
def wait_for_lock (locks : Nat → Bool) : Nat → Nat → Bool
  | 0, _ => false
  | t + 1, i => if locks i then true else wait_for_lock locks t (i + 1)

/-- Instrumented variant returning the sample index at which
`wait_for_lock` declares lock (`none` = timeout). -/
def lock_declare_index (locks : Nat → Bool) : Nat → Nat → Option Nat
  | 0, _ => none
  | t + 1, i => if locks i then some i else lock_declare_index locks t (i + 1)

/-- `LMX2820._write_frequency_sequence` (`lmx2820.py` lines 258-283):
disable RF, write FREQ_REGS, one calibration pulse, one `wait_for_lock`
with `timeout_ms=50`; on timeout raise `RuntimeError("PLL failed to
lock")`, on lock write OUTPUT_REGS. -/
def write_frequency_sequence (u : URegs) (locks : Nat → Bool) (d : Dev) :
    Except (Err × Dev) Dev :=
  let d := rf_enable u d false
  let d := write_reg_list d (FREQ_REGS u)
  let d := trigger_vco_calibration u d
  if wait_for_lock locks 50 0 then
    .ok (write_reg_list d (OUTPUT_REGS u))
  else
    .error (.runtimeError "PLL failed to lock", d)

/-- `LMX2820.apply_frequency_plan` (`lmx2820.py` lines 92-102). -/
def apply_frequency_plan (u : URegs) (locks : Nat → Bool) (d : Dev) (p : Plan) :
    Except (Err × Dev) Dev :=
  match configure_rf_path d p with
  | .error e => .error e
  | .ok d =>
    match update_registers_from_plan u d p with
    | .error e => .error e
    | .ok d => write_frequency_sequence u locks d

/-! ## Observers on device state -/

/-- Device state at the end of the operation, whether it returned or
raised (a Python exception leaves all prior mutations in place). -/
def resDev : Except (Err × Dev) Dev → Dev
  | .ok d => d
  | .error (_, d) => d

/-- The exception the operation raised, if any. -/
def resErr : Except (Err × Dev) Dev → Option Err
  | .ok _ => none
  | .error (e, _) => some e

/-- Last value sent to physical register `r` through the SPI transport. -/
def last_write (d : Dev) (r : Nat) : Option Nat :=
  d.trace.foldl
    (fun s e => match e with
      | Ev.spiW a v => if a = r then some v else s
      | _ => s) none

/-- Current level of the GPIO RF-enable line (mock GPIO starts
disabled, `gpio.py` line 70). -/
def rf_line (d : Dev) : Bool :=
  d.trace.foldl
    (fun s e => match e with
      | Ev.rfEn b => b
      | _ => s) false

/-- Chronological list of SPI write addresses. -/
def spi_addrs (d : Dev) : List Nat :=
  d.trace.filterMap
    (fun e => match e with
      | Ev.spiW a _ => some a
      | _ => none)

/-- Number of RF-enable-line assertions in the trace (counting
`gpio.rf_enable(True)` calls). -/
def rf_on_count (d : Dev) : Nat := d.trace.countP (fun e => decide (e = Ev.rfEn true))

/-- Register `r`'s shadow entry equals the last value written to the
physical register (the spec's shadow invariant, spec §3). -/
def synced (d : Dev) (r : Nat) : Prop :=
  last_write d r = some (getReg d r)

instance (d : Dev) (r : Nat) : Decidable (synced d r) := by
  unfold synced; infer_instance

/-- The registers whose shadow entries `apply_frequency_plan` touches. -/
def touched_regs (u : URegs) : List Nat :=
  FREQ_REGS u ++ OUTPUT_REGS u ++ [u.R_VCO_CAL]

/-- The lock-detect sample sequence from the spec's debounce test:
`[false, true, true, unlocked-glitch, true, true, true]`. -/
def glitchLocks : Nat → Bool :=
  fun i => [false, true, true, false, true, true, true].getD i false

/-! ## fsm.py — the RFFSM controller (fsm.py lines 43-154) -/

inductive RFState where
  | POWER_OFF
  | STANDBY
  | READY
  | ERROR
deriving DecidableEq

structure FSM where
  dev : Dev
  state : RFState
  current_freq_hz : Option Nat

/-- `RFFSM._enter_error_state` (`fsm.py` lines 141-144): force RF off,
then `self.device.log_error(reason)` — `LMX2820` defines no `log_error`,
so Python raises `AttributeError` there and the state assignment on line
144 is never reached. -/
def enter_error_state (u : URegs) (f : FSM) : Except (Err × FSM) FSM :=
  let d := rf_enable u f.dev false
  .error (.attributeError "LMX2820 object has no attribute log_error",
    { f with dev := d })

/-- `RFFSM.set_frequency` (`fsm.py` lines 96-123): reject in ERROR, reject
outside STANDBY/READY, otherwise compute a plan, apply it, and commit; any
exception is routed to `_enter_error_state`. -/
def fsm_set_frequency (u : URegs) (locks : Nat → Bool) (f : FSM) (freq_hz : Nat) :
    Except (Err × FSM) FSM :=
  if f.state = RFState.ERROR then
    .error (.runtimeError "Device in ERROR state. Reset required.", f)
  else if f.state ≠ RFState.STANDBY ∧ f.state ≠ RFState.READY then
    .error (.runtimeError "Cannot set frequency in state", f)
  else
    match compute_frequency_plan_integer_n freq_hz with
    | .error _ => enter_error_state u f
    | .ok p =>
      match apply_frequency_plan u locks f.dev p with
      | .error (_, d) => enter_error_state u { f with dev := d }
      | .ok d => .ok { dev := d, state := RFState.READY, current_freq_hz := some freq_hz }

/-- `RFFSM.reset` (`fsm.py` lines 80-90): `device.power_off()` (RF off,
power off), `device.power_on()` (power on, reset pulse),
`device.initialize_registers()` (load the default image and write all
static registers), force RF off, state STANDBY, frequency cleared.
`defaultImg` stands for the image loaded from
`data/HexRegisterValues_default.txt`. -/
def fsm_reset (u : URegs) (defaultImg : Nat → Nat) (f : FSM) : FSM :=
  let d := gpioEmit (rf_enable u f.dev false) (Ev.powerEn false)
  let d := gpioEmit (gpioEmit d (Ev.powerEn true)) Ev.resetPulse
  let d := write_static_registers { d with img := defaultImg }
  let d := rf_enable u d false
  { dev := d, state := RFState.STANDBY, current_freq_hz := none }

/-! ## Helper lemmas about the observers -/

theorem last_write_spiW (d : Dev) (a v r : Nat) :
    last_write (spiW d a v) r = if a = r then some v else last_write d r := by
  simp [last_write, spiW, List.foldl_append]

theorem last_write_gpioEmit (d : Dev) (e : Ev) (r : Nat) (h : e.isSpiW = false) :
    last_write (gpioEmit d e) r = last_write d r := by
  cases e <;> simp_all [last_write, gpioEmit, List.foldl_append, Ev.isSpiW]

theorem last_write_setReg (d : Dev) (a v r : Nat) :
    last_write (setReg d a v) r = last_write d r := rfl

theorem getReg_spiW (d : Dev) (a v r : Nat) : getReg (spiW d a v) r = getReg d r := rfl

theorem getReg_gpioEmit (d : Dev) (e : Ev) (r : Nat) : getReg (gpioEmit d e) r = getReg d r := rfl

theorem getReg_setReg (d : Dev) (a v r : Nat) :
    getReg (setReg d a v) r = if r = a then v else getReg d r := by
  simp [getReg, setReg, updFn]

theorem rf_line_spiW (d : Dev) (a v : Nat) : rf_line (spiW d a v) = rf_line d := by
  simp [rf_line, spiW, List.foldl_append]

theorem rf_line_gpioEmit_rfEn (d : Dev) (b : Bool) :
    rf_line (gpioEmit d (Ev.rfEn b)) = b := by
  simp [rf_line, gpioEmit, List.foldl_append]

theorem rf_line_gpioEmit (d : Dev) (e : Ev) (h : e.isRfEn = false) :
    rf_line (gpioEmit d e) = rf_line d := by
  cases e <;> simp_all [rf_line, gpioEmit, List.foldl_append, Ev.isRfEn]

theorem rf_line_setReg (d : Dev) (a v : Nat) : rf_line (setReg d a v) = rf_line d := rfl

theorem rf_line_calSet (d : Dev) (n : Nat) :
    rf_line { d with calPulses := n } = rf_line d := rfl

theorem rf_line_rf_enable (u : URegs) (d : Dev) (b : Bool) :
    rf_line (rf_enable u d b) = b := by
  simp [rf_enable, rf_line_gpioEmit_rfEn]

theorem spi_addrs_spiW (d : Dev) (a v : Nat) :
    spi_addrs (spiW d a v) = spi_addrs d ++ [a] := by
  simp [spi_addrs, spiW]

theorem spi_addrs_gpioEmit (d : Dev) (e : Ev) (h : e.isSpiW = false) :
    spi_addrs (gpioEmit d e) = spi_addrs d := by
  cases e <;> simp_all [spi_addrs, gpioEmit, Ev.isSpiW]

theorem spi_addrs_setReg (d : Dev) (a v : Nat) : spi_addrs (setReg d a v) = spi_addrs d := rfl

theorem spi_addrs_calSet (d : Dev) (n : Nat) :
    spi_addrs { d with calPulses := n } = spi_addrs d := rfl

theorem rf_on_count_spiW (d : Dev) (a v : Nat) : rf_on_count (spiW d a v) = rf_on_count d := by
  simp [rf_on_count, spiW, List.countP_append]

theorem rf_on_count_gpioEmit (d : Dev) (e : Ev) (h : e ≠ Ev.rfEn true) :
    rf_on_count (gpioEmit d e) = rf_on_count d := by
  simp [rf_on_count, gpioEmit, List.countP_append, List.countP_cons, h]

theorem rf_on_count_setReg (d : Dev) (a v : Nat) : rf_on_count (setReg d a v) = rf_on_count d := rfl

theorem rf_on_count_calSet (d : Dev) (n : Nat) :
    rf_on_count { d with calPulses := n } = rf_on_count d := rfl

theorem calPulses_spiW (d : Dev) (a v : Nat) : (spiW d a v).calPulses = d.calPulses := rfl

theorem calPulses_setReg (d : Dev) (a v : Nat) : (setReg d a v).calPulses = d.calPulses := rfl

theorem calPulses_gpioEmit (d : Dev) (e : Ev) : (gpioEmit d e).calPulses = d.calPulses := rfl

theorem calPulses_write_reg_list (regs : List Nat) (d : Dev) :
    (write_reg_list d regs).calPulses = d.calPulses := by
  induction regs generalizing d with
  | nil => rfl
  | cons a rest ih =>
    have hstep : write_reg_list d (a :: rest) = write_reg_list (spiW d a (getReg d a)) rest := by
      simp [write_reg_list]
    rw [hstep, ih]
    rfl

theorem rf_line_write_reg_list (regs : List Nat) (d : Dev) :
    rf_line (write_reg_list d regs) = rf_line d := by
  induction regs generalizing d with
  | nil => rfl
  | cons a rest ih =>
    have hstep : write_reg_list d (a :: rest) = write_reg_list (spiW d a (getReg d a)) rest := by
      simp [write_reg_list]
    rw [hstep, ih, rf_line_spiW]

theorem rf_on_count_write_reg_list (regs : List Nat) (d : Dev) :
    rf_on_count (write_reg_list d regs) = rf_on_count d := by
  induction regs generalizing d with
  | nil => rfl
  | cons a rest ih =>
    have hstep : write_reg_list d (a :: rest) = write_reg_list (spiW d a (getReg d a)) rest := by
      simp [write_reg_list]
    rw [hstep, ih, rf_on_count_spiW]

theorem calPulses_cal (u : URegs) (d : Dev) :
    (trigger_vco_calibration u d).calPulses = d.calPulses + 1 := rfl

theorem rf_line_cal (u : URegs) (d : Dev) :
    rf_line (trigger_vco_calibration u d) = rf_line d := by
  simp [trigger_vco_calibration, rf_line_calSet, rf_line_spiW, rf_line_setReg]

theorem rf_on_count_cal (u : URegs) (d : Dev) :
    rf_on_count (trigger_vco_calibration u d) = rf_on_count d := by
  simp [trigger_vco_calibration, rf_on_count_spiW, rf_on_count_setReg, rf_on_count_calSet]

theorem calPulses_rf_enable (u : URegs) (d : Dev) (b : Bool) :
    (rf_enable u d b).calPulses = d.calPulses := rfl

theorem rf_on_count_rf_enable_false (u : URegs) (d : Dev) :
    rf_on_count (rf_enable u d false) = rf_on_count d := by
  simp only [rf_enable]
  rw [rf_on_count_gpioEmit _ _ (by simp), rf_on_count_spiW, rf_on_count_setReg]

/-! ## Lock-polling lemmas -/

theorem wait_for_lock_all_false (locks : Nat → Bool) (h : ∀ i, locks i = false) :
    ∀ t i, wait_for_lock locks t i = false := by
  intro t
  induction t with
  | zero => intro i; rfl
  | succ t ih =>
    intro i
    rw [wait_for_lock, h i]
    simpa using ih (i + 1)

theorem wait_eq_declare (locks : Nat → Bool) : ∀ t i,
    wait_for_lock locks t i = (lock_declare_index locks t i).isSome := by
  intro t
  induction t with
  | zero => intro i; rfl
  | succ t ih =>
    intro i
    rw [wait_for_lock, lock_declare_index]
    by_cases hl : locks i = true
    · rw [if_pos hl, if_pos hl]; rfl
    · rw [if_neg hl, if_neg hl]; exact ih (i + 1)

theorem lock_declare_first (locks : Nat → Bool) (t i j : Nat)
    (h : lock_declare_index locks t i = some j) :
    locks j = true ∧ ∀ k, i ≤ k → k < j → locks k = false := by
  induction t generalizing i with
  | zero => exact absurd h (by simp [lock_declare_index])
  | succ t ih =>
    rw [lock_declare_index] at h
    by_cases hl : locks i = true
    · rw [if_pos hl] at h
      injection h with h
      subst h
      exact ⟨hl, fun k hik hki => absurd (Nat.lt_of_le_of_lt hik hki) (Nat.lt_irrefl i)⟩
    · rw [if_neg hl] at h
      obtain ⟨hj, hall⟩ := ih (i + 1) h
      refine ⟨hj, fun k hik hkj => ?_⟩
      rcases Nat.eq_or_lt_of_le hik with he | hlt
      · rw [← he]
        cases hb : locks i with
        | false => rfl
        | true => exact absurd hb hl
      · exact hall k hlt hkj

/-! ## Decomposition of the write sequence -/

theorem wfs_ok_eq (u : URegs) (locks : Nat → Bool) (d dF : Dev)
    (hok : write_frequency_sequence u locks d = .ok dF) :
    wait_for_lock locks 50 0 = true ∧
    dF = write_reg_list
      (trigger_vco_calibration u (write_reg_list (rf_enable u d false) (FREQ_REGS u)))
      (OUTPUT_REGS u) := by
  unfold write_frequency_sequence at hok
  by_cases hw : wait_for_lock locks 50 0 = true
  · rw [if_pos hw] at hok
    injection hok with hok
    exact ⟨hw, hok.symm⟩
  · rw [if_neg hw] at hok
    exact absurd hok (by simp)

theorem wfs_fail_eq (u : URegs) (locks : Nat → Bool) (d : Dev)
    (hw : wait_for_lock locks 50 0 = false) :
    write_frequency_sequence u locks d = .error (.runtimeError "PLL failed to lock",
      trigger_vco_calibration u (write_reg_list (rf_enable u d false) (FREQ_REGS u))) := by
  unfold write_frequency_sequence
  rw [if_neg (by simp [hw])]

theorem apply_ok_decomp (u : URegs) (locks : Nat → Bool) (d : Dev) (p : Plan) (dF : Dev)
    (hok : apply_frequency_plan u locks d p = .ok dF) :
    ∃ d1 d2, configure_rf_path d p = .ok d1 ∧
      update_registers_from_plan u d1 p = .ok d2 ∧
      write_frequency_sequence u locks d2 = .ok dF := by
  unfold apply_frequency_plan at hok
  cases hc : configure_rf_path d p with
  | error e => rw [hc] at hok; exact absurd hok (by simp)
  | ok d1 =>
    rw [hc] at hok
    dsimp only at hok
    cases hu : update_registers_from_plan u d1 p with
    | error e => rw [hu] at hok; exact absurd hok (by simp)
    | ok d2 =>
      rw [hu] at hok
      dsimp only at hok
      exact ⟨d1, d2, rfl, hu, hok⟩

theorem update_none_err (u : URegs) (d : Dev) (p : Plan) (h : p.chdiv = none) :
    ∃ d2, update_registers_from_plan u d p =
      .error (.typeError "unsupported operand type for shift: NoneType", d2) := by
  unfold update_registers_from_plan
  rw [h]
  exact ⟨_, rfl⟩

/-! ## Shadow-synchronisation lemmas

`synced d r` says register `r`'s shadow entry equals the last value sent to
the hardware.  Each driver primitive either preserves it or establishes it
at the register it writes. -/

theorem synced_gpioEmit (d : Dev) (e : Ev) (r : Nat) (h : e.isSpiW = false) :
    synced (gpioEmit d e) r ↔ synced d r := by
  unfold synced
  rw [last_write_gpioEmit d e r h, getReg_gpioEmit]

theorem synced_calSet (d : Dev) (n r : Nat) :
    synced { d with calPulses := n } r ↔ synced d r := Iff.rfl

theorem synced_setReg_ne (d : Dev) (a v r : Nat) (h : r ≠ a) (hs : synced d r) :
    synced (setReg d a v) r := by
  unfold synced at hs ⊢
  rw [last_write_setReg, getReg_setReg, if_neg h]
  exact hs

/-- Writing register `a`'s current shadow value through SPI establishes
synchronisation at `a` and preserves it everywhere. -/
theorem synced_spiW_curr (d : Dev) (a r : Nat) (h : synced d r ∨ r = a) :
    synced (spiW d a (getReg d a)) r := by
  unfold synced
  rw [last_write_spiW, getReg_spiW]
  by_cases har : a = r
  · subst har; simp
  · rw [if_neg har]
    rcases h with hs | hr
    · exact hs
    · exact absurd hr.symm har

/-- Setting a shadow entry and immediately writing that value through SPI
(the pattern of `rf_enable` and `_trigger_vco_calibration`). -/
theorem synced_setWrite (d : Dev) (a v r : Nat) (h : synced d r ∨ r = a) :
    synced (spiW (setReg d a v) a v) r := by
  unfold synced
  rw [last_write_spiW, getReg_spiW, getReg_setReg, last_write_setReg]
  by_cases har : r = a
  · subst har; simp
  · rw [if_neg (fun hh => har hh.symm), if_neg har]
    rcases h with hs | hr
    · exact hs
    · exact absurd hr har

theorem synced_write_reg_list (regs : List Nat) (d : Dev) (r : Nat)
    (h : synced d r ∨ r ∈ regs) : synced (write_reg_list d regs) r := by
  induction regs generalizing d with
  | nil =>
    simp only [List.not_mem_nil, or_false] at h
    simpa [write_reg_list] using h
  | cons a rest ih =>
    have hstep : write_reg_list d (a :: rest) = write_reg_list (spiW d a (getReg d a)) rest := by
      simp [write_reg_list]
    rw [hstep]
    apply ih
    by_cases har : r = a
    · exact Or.inl (synced_spiW_curr d a r (Or.inr har))
    · rcases h with hs | hm
      · exact Or.inl (synced_spiW_curr d a r (Or.inl hs))
      · rcases List.mem_cons.mp hm with hra | hrest
        · exact absurd hra har
        · exact Or.inr hrest

theorem synced_rf_enable (u : URegs) (d : Dev) (b : Bool) (r : Nat)
    (h : synced d r ∨ r = u.R_RFOUTA_EN) : synced (rf_enable u d b) r := by
  unfold rf_enable
  rw [synced_gpioEmit _ (Ev.rfEn b) r rfl]
  exact synced_setWrite d u.R_RFOUTA_EN _ r h

theorem synced_cal (u : URegs) (d : Dev) (r : Nat)
    (h : synced d r ∨ r = u.R_VCO_CAL) : synced (trigger_vco_calibration u d) r := by
  unfold trigger_vco_calibration
  rw [synced_calSet]
  apply synced_setWrite
  by_cases har : r = u.R_VCO_CAL
  · exact Or.inr har
  · rcases h with hs | hr
    · exact Or.inl (synced_setWrite d u.R_VCO_CAL _ r (Or.inl hs))
    · exact absurd hr har

theorem synced_sp4t_extDbl (d : Dev) (n : Nat) (b : Bool) (r : Nat) :
    synced (gpioEmit (gpioEmit d (Ev.sp4t n)) (Ev.extDbl b)) r ↔ synced d r := by
  rw [synced_gpioEmit _ (Ev.extDbl b) r rfl, synced_gpioEmit _ (Ev.sp4t n) r rfl]

theorem synced_configure (d : Dev) (p : Plan) (d2 : Dev) (r : Nat)
    (hok : configure_rf_path d p = .ok d2) (hs : synced d r) : synced d2 r := by
  unfold configure_rf_path at hok
  by_cases h1 : p.band = "1_10"
  · rw [if_pos h1] at hok
    injection hok with hok
    subst hok
    exact (synced_sp4t_extDbl d 0 false r).mpr hs
  rw [if_neg h1] at hok
  by_cases h2 : p.band = "10_22"
  · rw [if_pos h2] at hok
    injection hok with hok
    subst hok
    exact (synced_sp4t_extDbl d 1 false r).mpr hs
  rw [if_neg h2] at hok
  by_cases h3 : p.band = "22_32"
  · rw [if_pos h3] at hok
    injection hok with hok
    subst hok
    exact (synced_sp4t_extDbl d 2 true r).mpr hs
  rw [if_neg h3] at hok
  by_cases h4 : p.band = "32_40"
  · rw [if_pos h4] at hok
    injection hok with hok
    subst hok
    exact (synced_sp4t_extDbl d 3 true r).mpr hs
  rw [if_neg h4] at hok
  exact absurd hok (by simp)

theorem synced_update (u : URegs) (d : Dev) (p : Plan) (d2 : Dev) (r : Nat)
    (hok : update_registers_from_plan u d p = .ok d2)
    (h1 : r ≠ u.R_PLL_NUM) (h2 : r ≠ u.R_PLL_DEN) (h3 : r ≠ u.R_PLL_N)
    (h4 : r ≠ u.R_CHDIV) (h5 : r ≠ u.R_OUTA_MUX) (h6 : r ≠ u.R_RFOUTA_PWR)
    (hs : synced d r) : synced d2 r := by
  unfold update_registers_from_plan at hok
  cases hc : p.chdiv with
  | none => rw [hc] at hok; exact absurd hok (by simp)
  | some c =>
    rw [hc] at hok
    injection hok with hok
    rw [← hok]
    exact synced_setReg_ne _ _ _ _ h6 (synced_setReg_ne _ _ _ _ h5
      (synced_setReg_ne _ _ _ _ h4 (synced_setReg_ne _ _ _ _ h3
        (synced_setReg_ne _ _ _ _ h2 (synced_setReg_ne _ _ _ _ h1 hs)))))

/-! ## Planner decomposition lemmas -/

theorem planner_bandSelect (freq : Nat) (p : Plan)
    (hok : compute_frequency_plan_integer_n freq = .ok p) :
    ∃ b, bandSelect freq = .ok b ∧ p.band = b.band ∧ p.chdiv = b.chdiv := by
  unfold compute_frequency_plan_integer_n at hok
  by_cases h1 : ¬ (1000000000 ≤ freq ∧ freq ≤ 40000000000)
  · rw [if_pos h1] at hok; exact absurd hok (by simp)
  rw [if_neg h1] at hok
  by_cases h2 : freq % STEP_HZ ≠ 0
  · rw [if_pos h2] at hok; exact absurd hok (by simp)
  rw [if_neg h2] at hok
  cases hbs : bandSelect freq with
  | error e => rw [hbs] at hok; exact absurd hok (by simp)
  | ok b =>
    rw [hbs] at hok
    dsimp only at hok
    by_cases h3 : b.vco_hz % F_REF_HZ ≠ 0
    · rw [if_pos h3] at hok; exact absurd hok (by simp)
    rw [if_neg h3] at hok
    by_cases h4 : ¬ (12 ≤ b.vco_hz / F_REF_HZ ∧ b.vco_hz / F_REF_HZ ≤ 0x7FFF)
    · rw [if_pos h4] at hok; exact absurd hok (by simp)
    rw [if_neg h4] at hok
    injection hok with hok
    exact ⟨b, rfl, by rw [← hok], by rw [← hok]⟩

theorem bandSelect_high (freq : Nat) (hf : 22600000000 < freq) (b : BandSel)
    (h : bandSelect freq = .ok b) : b.band = "22_30" ∨ b.band = "30_40" := by
  unfold bandSelect at h
  rw [if_neg (by omega), if_neg (by omega), if_neg (by omega), if_neg (by omega)] at h
  by_cases h30 : freq ≤ 30000000000
  · rw [if_pos h30] at h
    by_cases hv : ¬ (VCO_MIN ≤ freq / 4 ∧ freq / 4 ≤ VCO_MAX)
    · rw [if_pos hv] at h; exact absurd h (by simp)
    · rw [if_neg hv] at h
      injection h with h
      left
      rw [← h]
  · rw [if_neg h30] at h
    by_cases hv : ¬ (VCO_MIN ≤ freq / 4 ∧ freq / 4 ≤ VCO_MAX)
    · rw [if_pos hv] at h; exact absurd h (by simp)
    · rw [if_neg hv] at h
      injection h with h
      right
      rw [← h]

theorem bandSelect_mid (freq : Nat) (h1 : 5650000000 < freq) (h2 : freq ≤ 22600000000)
    (b : BandSel) (h : bandSelect freq = .ok b) :
    b.chdiv = none ∧ (b.band = "1_10" ∨ b.band = "10_22") := by
  unfold bandSelect at h
  rw [if_neg (by omega)] at h
  by_cases ha : freq ≤ 10000000000
  · rw [if_pos ha] at h
    by_cases hv : ¬ (VCO_MIN ≤ freq ∧ freq ≤ VCO_MAX)
    · rw [if_pos hv] at h; exact absurd h (by simp)
    · rw [if_neg hv] at h
      injection h with h
      exact ⟨by rw [← h], Or.inl (by rw [← h])⟩
  · rw [if_neg ha] at h
    by_cases hb11 : freq ≤ 11300000000
    · rw [if_pos hb11] at h
      injection h with h
      exact ⟨by rw [← h], Or.inr (by rw [← h])⟩
    · rw [if_neg hb11, if_pos (by omega)] at h
      by_cases hv : ¬ (VCO_MIN ≤ freq / 2 ∧ freq / 2 ≤ VCO_MAX)
      · rw [if_pos hv] at h; exact absurd h (by simp)
      · rw [if_neg hv] at h
        injection h with h
        exact ⟨by rw [← h], Or.inr (by rw [← h])⟩

end SigGen

namespace SigGen

/-! ## Claim theorems -/

/-- C1 (counterexample): the claim states `N = 80` for the 1 GHz request,
but `compute_frequency_plan_integer_n 1000000000` returns `N = 160`
(the code's reference `F_REF_HZ` is 50 MHz, not the 100 MHz the claim
assumes), so the claim as stated is false. -/
theorem planner_1ghz_returns_N_160_not_80 :
    compute_frequency_plan_integer_n 1000000000 =
      .ok ⟨160, some 8, 0, "1_10", 7, false⟩ ∧ (160 : Nat) ≠ 80 :=
  ⟨by rfl, by decide⟩

/-- C1 (amended): for the request `freq_hz = 1_000_000_000` the planner
returns a plan on the divider path (`outa_mux = 0`) with channel-divider
ratio `chdiv = 8`, VCO frequency `1 GHz * 8 = 8 GHz`, and integer divider
`N = 8 GHz / F_REF_HZ = 160`. -/
theorem planner_1ghz_divider_path_chdiv8_N160 :
    compute_frequency_plan_integer_n 1000000000 =
      .ok ⟨160, some 8, 0, "1_10", 7, false⟩ ∧
    1000000000 * 8 = 8000000000 ∧ 8000000000 / F_REF_HZ = 160 :=
  ⟨by rfl, by decide, by decide⟩

/-- C2 (counterexample): on the spec's glitch sequence
`[false, true, true, false, true, true, true]`, `wait_for_lock` declares
lock at sample index 1 — the FIRST locked read, reached already with a
2-sample budget — although sample 0 read unlocked and the third
consecutive locked read after the glitch is only at index 6; so lock IS
declared before three consecutive locked samples ever occur, refuting the
debounce claim. -/
theorem lock_declared_at_first_true_sample_despite_glitch :
    lock_declare_index glitchLocks 50 0 = some 1 ∧
    wait_for_lock glitchLocks 2 0 = true ∧
    glitchLocks 0 = false ∧ (1 : Nat) < 6 := by decide

/-- C2 (amended): `wait_for_lock` performs no debouncing at all: whenever
it declares lock at sample `j`, sample `j` is the first locked read — it
read locked and every earlier sample in the poll read unlocked.  A single
locked sample suffices; no consecutive-read counter exists. -/
theorem wait_for_lock_declares_first_locked_sample (locks : Nat → Bool) (t i j : Nat)
    (h : lock_declare_index locks t i = some j) :
    wait_for_lock locks t i = true ∧ locks j = true ∧
    ∀ k, i ≤ k → k < j → locks k = false := by
  refine ⟨?_, lock_declare_first locks t i j h⟩
  rw [wait_eq_declare locks t i, h]
  rfl

/-- C2 (witness): the amended theorem applied to the glitch sequence with
budget 50 starting at sample 0: lock is declared at index 1, the first
locked sample. -/
theorem wait_for_lock_declares_first_locked_sample_witness :
    wait_for_lock glitchLocks 50 0 = true ∧ glitchLocks 1 = true ∧
    ∀ k, 0 ≤ k → k < 1 → glitchLocks k = false :=
  wait_for_lock_declares_first_locked_sample glitchLocks 50 0 1 (by decide)

/-- C3 (counterexample): with a lock-detect input that never reads locked,
applying the 1 GHz plan performs exactly ONE calibration pulse — not the
claimed three attempts — and raises `RuntimeError "PLL failed to lock"`,
not a `PllLockError` (no such class exists in `lmx2820.py`). -/
theorem permanent_lock_failure_single_attempt_not_three :
    resErr (apply_frequency_plan defaultURegs (fun _ => false) dev0
      ⟨160, some 8, 0, "1_10", 7, false⟩) = some (.runtimeError "PLL failed to lock") ∧
    (resDev (apply_frequency_plan defaultURegs (fun _ => false) dev0
      ⟨160, some 8, 0, "1_10", 7, false⟩)).calPulses = 1 ∧ (1 : Nat) ≠ 3 := by decide

/-- C3 (amended): for every lock-detect input that never reads locked,
`_write_frequency_sequence` makes exactly one calibration attempt (no
retry loop exists), fails with `RuntimeError "PLL failed to lock"`, and RF
output remains disabled throughout: the RF line ends low and no
RF-enable-line assertion is ever added to the trace. -/
theorem permanent_lock_failure_one_attempt_runtime_error_rf_disabled
    (u : URegs) (d : Dev) (locks : Nat → Bool) (h : ∀ i, locks i = false) :
    resErr (write_frequency_sequence u locks d) =
      some (.runtimeError "PLL failed to lock") ∧
    (resDev (write_frequency_sequence u locks d)).calPulses = d.calPulses + 1 ∧
    rf_line (resDev (write_frequency_sequence u locks d)) = false ∧
    rf_on_count (resDev (write_frequency_sequence u locks d)) = rf_on_count d := by
  rw [wfs_fail_eq u locks d (wait_for_lock_all_false locks h 50 0)]
  refine ⟨rfl, ?_, ?_, ?_⟩
  · show (trigger_vco_calibration u _).calPulses = d.calPulses + 1
    rw [calPulses_cal, calPulses_write_reg_list, calPulses_rf_enable]
  · show rf_line (trigger_vco_calibration u _) = false
    rw [rf_line_cal, rf_line_write_reg_list, rf_line_rf_enable]
  · show rf_on_count (trigger_vco_calibration u _) = rf_on_count d
    rw [rf_on_count_cal, rf_on_count_write_reg_list, rf_on_count_rf_enable_false]

/-- C3 (witness): the amended theorem at the fresh device with the
never-locking input and the register_map analogue addresses. -/
theorem permanent_lock_failure_one_attempt_runtime_error_rf_disabled_witness :
    resErr (write_frequency_sequence defaultURegs (fun _ => false) dev0) =
      some (.runtimeError "PLL failed to lock") ∧
    (resDev (write_frequency_sequence defaultURegs (fun _ => false) dev0)).calPulses =
      dev0.calPulses + 1 ∧
    rf_line (resDev (write_frequency_sequence defaultURegs (fun _ => false) dev0)) = false ∧
    rf_on_count (resDev (write_frequency_sequence defaultURegs (fun _ => false) dev0)) =
      rf_on_count dev0 :=
  permanent_lock_failure_one_attempt_runtime_error_rf_disabled
    defaultURegs dev0 (fun _ => false) (fun _ => rfl)

/-- C4 (code bug): a successful `apply_frequency_plan` of the 1 GHz plan
(lock-detect always locked) never asserts the RF enable line: the run
completes without error, the output-power and output-enable registers are
the last two SPI writes (addresses 79 and 78 at the tail of the address
trace), but no `gpio.rf_enable(True)` call ever occurs and the RF line
ends deasserted — contradicting the code's own `# Enable RF output`
comment, its docstring "Safely reprogram the PLL and enable RF output",
and spec §4.3 step 7 "then assert RF enable". -/
theorem successful_apply_leaves_rf_enable_line_deasserted :
    resErr (apply_frequency_plan defaultURegs (fun _ => true) dev0
      ⟨160, some 8, 0, "1_10", 7, false⟩) = none ∧
    rf_line (resDev (apply_frequency_plan defaultURegs (fun _ => true) dev0
      ⟨160, some 8, 0, "1_10", 7, false⟩)) = false ∧
    Ev.rfEn true ∉ (resDev (apply_frequency_plan defaultURegs (fun _ => true) dev0
      ⟨160, some 8, 0, "1_10", 7, false⟩)).trace ∧
    spi_addrs (resDev (apply_frequency_plan defaultURegs (fun _ => true) dev0
      ⟨160, some 8, 0, "1_10", 7, false⟩)) =
      [78, 43, 39, 36, 32, 78, 0, 0, 79, 78] := by decide

/-- C5 (counterexample): a failed `apply_frequency_plan` (permanent lock
failure) leaves the register image holding a demanded-but-unsent value:
the output-power register R79 (`R_RFOUTA_PWR` in `defaultURegs`) has
shadow value 14 (power field 0x7 at shift 1) although nothing was ever
written to that physical register, so the shadow invariant is violated at
a point with no write in flight. -/
theorem failed_apply_leaves_output_power_register_desynced :
    resErr (apply_frequency_plan defaultURegs (fun _ => false) dev0
      ⟨160, some 8, 0, "1_10", 7, false⟩) = some (.runtimeError "PLL failed to lock") ∧
    getReg (resDev (apply_frequency_plan defaultURegs (fun _ => false) dev0
      ⟨160, some 8, 0, "1_10", 7, false⟩)) 79 = 14 ∧
    last_write (resDev (apply_frequency_plan defaultURegs (fun _ => false) dev0
      ⟨160, some 8, 0, "1_10", 7, false⟩)) 79 = none ∧
    ¬ synced (resDev (apply_frequency_plan defaultURegs (fun _ => false) dev0
      ⟨160, some 8, 0, "1_10", 7, false⟩)) 79 := by decide

/-- C5 (amended): the shadow invariant does hold at the completion of every
SUCCESSFUL `apply_frequency_plan`: every register that was synchronised
before the call, and every register the apply touches (the five
frequency-defining registers, the two output registers, and the
calibration register), has its image entry equal to the last value written
to the physical register.  Only a failed apply leaves the output-power
register demanded-but-unsent. -/
theorem register_image_synced_after_successful_apply
    (u : URegs) (locks : Nat → Bool) (d : Dev) (p : Plan) (dF : Dev) (r : Nat)
    (hok : apply_frequency_plan u locks d p = .ok dF)
    (h : synced d r ∨ r ∈ touched_regs u) : synced dF r := by
  obtain ⟨d1, d2, hc, hu, hw⟩ := apply_ok_decomp u locks d p dF hok
  obtain ⟨hwait, hdF⟩ := wfs_ok_eq u locks d2 dF hw
  subst hdF
  by_cases hout : r ∈ OUTPUT_REGS u
  · exact synced_write_reg_list _ _ _ (Or.inr hout)
  apply synced_write_reg_list _ _ _ (Or.inl ?_)
  by_cases hcal : r = u.R_VCO_CAL
  · exact synced_cal _ _ _ (Or.inr hcal)
  apply synced_cal _ _ _ (Or.inl ?_)
  by_cases hfreq : r ∈ FREQ_REGS u
  · exact synced_write_reg_list _ _ _ (Or.inr hfreq)
  apply synced_write_reg_list _ _ _ (Or.inl ?_)
  have hs : synced d r := by
    rcases h with hs | hm
    · exact hs
    · exfalso
      unfold touched_regs at hm
      rcases List.mem_append.mp hm with hm1 | hm2
      · rcases List.mem_append.mp hm1 with hm3 | hm4
        · exact hfreq hm3
        · exact hout hm4
      · exact hcal (by simpa using hm2)
  simp only [FREQ_REGS, List.mem_cons, List.not_mem_nil, or_false, not_or] at hfreq
  obtain ⟨h1, h2, h3, h4, h5⟩ := hfreq
  simp only [OUTPUT_REGS, List.mem_cons, List.not_mem_nil, or_false, not_or] at hout
  obtain ⟨h6, hen⟩ := hout
  apply synced_rf_enable _ _ _ _ (Or.inl ?_)
  exact synced_update u d1 p d2 r hu h1 h2 h3 h4 h5 h6 (synced_configure d p d1 r hc hs)

/-- C5 (witness): the amended theorem at the 1 GHz plan with an
always-locked input, for the integer-N register R36 (touched by the
apply). -/
theorem register_image_synced_after_successful_apply_witness :
    synced (resDev (apply_frequency_plan defaultURegs (fun _ => true) dev0
      ⟨160, some 8, 0, "1_10", 7, false⟩)) 36 :=
  register_image_synced_after_successful_apply defaultURegs (fun _ => true) dev0
    ⟨160, some 8, 0, "1_10", 7, false⟩
    (resDev (apply_frequency_plan defaultURegs (fun _ => true) dev0
      ⟨160, some 8, 0, "1_10", 7, false⟩)) 36 rfl (Or.inr (by decide))

/-- C6 (counterexample): the claim's order is "mode control first, then N,
then numerator/denominator, then chdiv, then mux", but in the successful
write sequence (register_map analogue addresses) the first
frequency-defining SPI write goes to the fractional numerator register
R43 — not a MASH/mode-control register, of which none is ever written —
and the numerator write (index 1) precedes the integer-N write to R36
(index 3). -/
theorem freq_registers_numerator_written_before_N :
    spi_addrs (resDev (write_frequency_sequence defaultURegs (fun _ => true) dev0)) =
      [78, 43, 39, 36, 32, 78, 0, 0, 79, 78] ∧
    (spi_addrs (resDev (write_frequency_sequence defaultURegs (fun _ => true) dev0))).findIdx
      (fun a => a == 43) = 1 ∧
    (spi_addrs (resDev (write_frequency_sequence defaultURegs (fun _ => true) dev0))).findIdx
      (fun a => a == 36) = 3 ∧
    (1 : Nat) < 3 := by decide

/-- C6 (amended): every successful `_write_frequency_sequence` emits
exactly the fixed SPI address sequence: the RF-disable write, then the
frequency-defining registers in the order numerator → denominator →
integer-N → channel divider → output mux (no fractional/MASH mode-control
write exists), then the two calibration-pulse writes, then output power
and output enable. -/
theorem freq_register_write_sequence_is_fixed (u : URegs) (locks : Nat → Bool) (d dF : Dev)
    (hok : write_frequency_sequence u locks d = .ok dF) :
    spi_addrs dF = spi_addrs d ++
      [u.R_RFOUTA_EN, u.R_PLL_NUM, u.R_PLL_DEN, u.R_PLL_N, u.R_CHDIV, u.R_OUTA_MUX,
       u.R_VCO_CAL, u.R_VCO_CAL, u.R_RFOUTA_PWR, u.R_RFOUTA_EN] := by
  obtain ⟨hwait, hdF⟩ := wfs_ok_eq u locks d dF hok
  subst hdF
  simp [write_reg_list, FREQ_REGS, OUTPUT_REGS, trigger_vco_calibration, rf_enable,
        spi_addrs_spiW, spi_addrs_setReg, spi_addrs_gpioEmit, spi_addrs_calSet,
        Ev.isSpiW, List.append_assoc]

/-- C6 (witness): the amended theorem at the fresh device with an
always-locked input and the register_map analogue addresses. -/
theorem freq_register_write_sequence_is_fixed_witness :
    spi_addrs (resDev (write_frequency_sequence defaultURegs (fun _ => true) dev0)) =
      spi_addrs dev0 ++ [defaultURegs.R_RFOUTA_EN, defaultURegs.R_PLL_NUM,
        defaultURegs.R_PLL_DEN, defaultURegs.R_PLL_N, defaultURegs.R_CHDIV,
        defaultURegs.R_OUTA_MUX, defaultURegs.R_VCO_CAL, defaultURegs.R_VCO_CAL,
        defaultURegs.R_RFOUTA_PWR, defaultURegs.R_RFOUTA_EN] :=
  freq_register_write_sequence_is_fixed defaultURegs (fun _ => true) dev0
    (resDev (write_frequency_sequence defaultURegs (fun _ => true) dev0)) rfl

/-- C7 (counterexample): `set_field` does not implement the claim's
formula.  At `reg_val = 0, mask = 1, shift = 1, value = 1` the code
returns 0 (`(1 << 1) & 1 = 0`) while the claimed formula
`(value & mask) << shift` gives 2.  And at `reg_val = 1, mask = 1,
shift = 1, value = 0` the code clears bit 0 — a bit OUTSIDE the claimed
field `mask << shift = 0b10` — changing it from 1 to 0. -/
theorem set_field_mask_not_shifted_counterexample :
    set_field 0 1 1 1 = 0 ∧ set_field_spec 0 1 1 1 = 2 ∧
    set_field 0 1 1 1 ≠ set_field_spec 0 1 1 1 ∧
    set_field 1 1 1 0 = 0 ∧ Nat.testBit 1 0 = true ∧
    Nat.testBit (set_field 1 1 1 0) 0 = false := by decide

/-- C7 (amended): `set_field` treats `mask` as ALREADY SHIFTED: bit `i` of
the result is bit `i` of `value << shift` when `mask` has bit `i` set, and
the unchanged bit `i` of `reg_val` otherwise — i.e. it clears the bits
under `mask` (not `mask << shift`), ORs in `(value << shift) & mask`, and
leaves every bit outside `mask` unchanged. -/
theorem set_field_clears_and_sets_only_mask_bits (reg_val mask shift value i : Nat) :
    (set_field reg_val mask shift value).testBit i =
      if mask.testBit i then (value <<< shift).testBit i else reg_val.testBit i := by
  unfold set_field
  rw [Nat.testBit_lor, Nat.testBit_xor, Nat.testBit_land, Nat.testBit_land]
  cases hm : mask.testBit i <;> cases hr : reg_val.testBit i <;>
    cases hv : (value <<< shift).testBit i <;> simp

/-- C8: a controller in ERROR rejects `set_frequency` with the state error
`RuntimeError "Device in ERROR state. Reset required."` and no side effect
(the returned machine is the unchanged input), and `reset()` takes it to
STANDBY with the RF line deasserted and no committed frequency. -/
theorem error_state_rejects_set_frequency_and_reset_reaches_standby
    (u : URegs) (locks : Nat → Bool) (defaultImg : Nat → Nat) (f : FSM)
    (freq : Nat) (h : f.state = RFState.ERROR) :
    fsm_set_frequency u locks f freq =
      .error (.runtimeError "Device in ERROR state. Reset required.", f) ∧
    (fsm_reset u defaultImg f).state = RFState.STANDBY ∧
    (fsm_reset u defaultImg f).current_freq_hz = none ∧
    rf_line (fsm_reset u defaultImg f).dev = false := by
  refine ⟨?_, rfl, rfl, ?_⟩
  · unfold fsm_set_frequency
    rw [if_pos h]
  · simp only [fsm_reset]
    exact rf_line_rf_enable u _ false

/-- C8 (witness): the theorem at a concrete machine in ERROR holding a
previously committed 5 GHz frequency. -/
theorem error_state_rejects_set_frequency_and_reset_reaches_standby_witness :
    fsm_set_frequency defaultURegs (fun _ => true)
      ⟨dev0, RFState.ERROR, some 5000000000⟩ 1000000000 =
      .error (.runtimeError "Device in ERROR state. Reset required.",
        ⟨dev0, RFState.ERROR, some 5000000000⟩) ∧
    (fsm_reset defaultURegs (fun _ => 0) ⟨dev0, RFState.ERROR, some 5000000000⟩).state =
      RFState.STANDBY ∧
    (fsm_reset defaultURegs (fun _ => 0)
      ⟨dev0, RFState.ERROR, some 5000000000⟩).current_freq_hz = none ∧
    rf_line (fsm_reset defaultURegs (fun _ => 0)
      ⟨dev0, RFState.ERROR, some 5000000000⟩).dev = false :=
  error_state_rejects_set_frequency_and_reset_reaches_standby defaultURegs (fun _ => true)
    (fun _ => 0) ⟨dev0, RFState.ERROR, some 5000000000⟩ 1000000000 rfl

/-- C9: every plan the planner accepts for a frequency above 22.6 GHz
carries band tag "22_30" or "30_40"; `_configure_rf_path` recognizes only
"1_10", "10_22", "22_32", "32_40", so `apply_frequency_plan` raises
`ValueError "Unknown frequency band"` with the device state returned
exactly as it was — no register-image update and no SPI write has
occurred. -/
theorem planner_high_band_tags_unknown_to_rf_path_config
    (freq : Nat) (p : Plan) (hf : 22600000000 < freq)
    (hok : compute_frequency_plan_integer_n freq = .ok p) :
    (p.band = "22_30" ∨ p.band = "30_40") ∧
    ∀ (u : URegs) (locks : Nat → Bool) (d : Dev),
      apply_frequency_plan u locks d p = .error (.valueError "Unknown frequency band", d) := by
  obtain ⟨b, hbs, hband, _⟩ := planner_bandSelect freq p hok
  have hpb : p.band = "22_30" ∨ p.band = "30_40" := by
    rw [hband]; exact bandSelect_high freq hf b hbs
  refine ⟨hpb, fun u locks d => ?_⟩
  have hcfg : configure_rf_path d p = .error (.valueError "Unknown frequency band", d) := by
    unfold configure_rf_path
    rcases hpb with hb' | hb' <;>
      rw [hb'] <;>
      rw [if_neg (by decide), if_neg (by decide), if_neg (by decide), if_neg (by decide)]
  unfold apply_frequency_plan
  rw [hcfg]

/-- C9 (witness): the theorem at 24 GHz, whose plan carries band "22_30"
(VCO 6 GHz, N 120), applied to the fresh device: the apply fails with the
unknown-band `ValueError` and the device is untouched. -/
theorem planner_high_band_tags_unknown_to_rf_path_config_witness :
    apply_frequency_plan defaultURegs (fun _ => true) dev0
      ⟨120, none, 2, "22_30", 7, true⟩ =
      .error (.valueError "Unknown frequency band", dev0) :=
  (planner_high_band_tags_unknown_to_rf_path_config 24000000000
    ⟨120, none, 2, "22_30", 7, true⟩ (by decide) (by rfl)).2
    defaultURegs (fun _ => true) dev0

/-- C10: every plan the planner accepts for a frequency above 5.65 GHz and
at most 22.6 GHz has `chdiv = None`, and `apply_frequency_plan` then fails
with the `TypeError` arising from passing `None` into `set_field`'s
shift-and-mask arithmetic for the channel-divider field — the operation
neither completes nor returns a typed failure. -/
theorem non_divider_plans_chdiv_none_causes_type_error
    (freq : Nat) (p : Plan) (h1 : 5650000000 < freq) (h2 : freq ≤ 22600000000)
    (hok : compute_frequency_plan_integer_n freq = .ok p) :
    p.chdiv = none ∧
    ∀ (u : URegs) (locks : Nat → Bool) (d : Dev),
      resErr (apply_frequency_plan u locks d p) =
        some (.typeError "unsupported operand type for shift: NoneType") := by
  obtain ⟨b, hbs, hband, hchdiv⟩ := planner_bandSelect freq p hok
  obtain ⟨hbnone, hb⟩ := bandSelect_mid freq h1 h2 b hbs
  have hpc : p.chdiv = none := by rw [hchdiv, hbnone]
  refine ⟨hpc, fun u locks d => ?_⟩
  have hpb : p.band = "1_10" ∨ p.band = "10_22" := by rw [hband]; exact hb
  have hcfg : ∃ d1, configure_rf_path d p = .ok d1 := by
    unfold configure_rf_path
    rcases hpb with hb' | hb'
    · rw [hb', if_pos rfl]; exact ⟨_, rfl⟩
    · rw [hb', if_neg (by decide), if_pos rfl]; exact ⟨_, rfl⟩
  obtain ⟨d1, hc⟩ := hcfg
  obtain ⟨d2, hupd⟩ := update_none_err u d1 p hpc
  unfold apply_frequency_plan
  rw [hc]
  dsimp only
  rw [hupd]
  rfl

/-- C10 (witness): the theorem at 6 GHz, whose plan is the direct-VCO path
(band "1_10", mux 1, N 120, chdiv None), applied to the fresh device. -/
theorem non_divider_plans_chdiv_none_causes_type_error_witness :
    resErr (apply_frequency_plan defaultURegs (fun _ => true) dev0
      ⟨120, none, 1, "1_10", 7, false⟩) =
      some (.typeError "unsupported operand type for shift: NoneType") :=
  (non_divider_plans_chdiv_none_causes_type_error 6000000000
    ⟨120, none, 1, "1_10", 7, false⟩ (by decide) (by decide) (by rfl)).2
    defaultURegs (fun _ => true) dev0

end SigGen
